import Mathlib

/-!
Verification development for the church-bot repository (`app/sheets.py`,
`app/auth.py`, `app/sessions.py`, `app/bot.py`, `app/config.py`).

The Python code is shallowly embedded: spreadsheet cell values are strings,
a sheet is a list of rows, and every stateful component is modelled by
explicit state passing.  Remote (network) operations that may fail at
runtime are parametrised by a boolean outcome where a claim depends on the
failure behaviour.
-/

namespace ChurchBot

/-! ## Association-list helpers

Python dictionaries (`self._worksheets`, session dicts, draft dicts) are
modelled as association lists with explicit lookup / set / erase. -/

def lookupA {α β : Type} [DecidableEq α] : List (α × β) → α → Option β
  | [], _ => none
  | (k, v) :: rest, a => if k = a then some v else lookupA rest a

def setA {α β : Type} [DecidableEq α] : List (α × β) → α → β → List (α × β)
  | [], a, b => [(a, b)]
  | (k, v) :: rest, a, b => if k = a then (a, b) :: rest else (k, v) :: setA rest a b

def eraseA {α β : Type} [DecidableEq α] : List (α × β) → α → List (α × β)
  | [], _ => []
  | (k, v) :: rest, a => if k = a then rest else (k, v) :: eraseA rest a

theorem lookupA_setA_self {α β : Type} [DecidableEq α] (l : List (α × β)) (a : α) (b : β) :
    lookupA (setA l a b) a = some b := by
  induction l with
  | nil => simp [setA, lookupA]
  | cons kv rest ih =>
    obtain ⟨k, v⟩ := kv
    by_cases h : k = a
    · simp [setA, h, lookupA]
    · simp [setA, h, lookupA, ih]

theorem lookupA_setA_ne {α β : Type} [DecidableEq α] (l : List (α × β)) (a a' : α) (b : β)
    (h : a' ≠ a) : lookupA (setA l a b) a' = lookupA l a' := by
  induction l with
  | nil => simp [setA, lookupA, Ne.symm h]
  | cons kv rest ih =>
    obtain ⟨k, v⟩ := kv
    by_cases hk : k = a
    · subst hk
      simp only [setA, if_pos rfl, lookupA]
      rw [if_neg (fun h' => h h'.symm), if_neg (fun h' => h h'.symm)]
    · simp only [setA, if_neg hk, lookupA]
      by_cases hk' : k = a'
      · simp [hk']
      · simp [hk', ih]

theorem lookupA_append_single_ne {α β : Type} [DecidableEq α]
    (l : List (α × β)) (a a' : α) (b : β) (h : a' ≠ a) :
    lookupA (l ++ [(a, b)]) a' = lookupA l a' := by
  induction l with
  | nil => simp [lookupA, Ne.symm h]
  | cons kv rest ih =>
    obtain ⟨k, v⟩ := kv
    by_cases hk : k = a'
    · simp [lookupA, hk]
    · simp [lookupA, hk, ih]

theorem lookupA_append_single_none {α β : Type} [DecidableEq α]
    (l : List (α × β)) (a : α) (b : β) (h : lookupA l a = none) :
    lookupA (l ++ [(a, b)]) a = some b := by
  induction l with
  | nil => simp [lookupA]
  | cons kv rest ih =>
    obtain ⟨k, v⟩ := kv
    simp only [lookupA, List.cons_append] at h ⊢
    by_cases hk : k = a
    · simp [hk] at h
    · simp only [if_neg hk] at h ⊢
      exact ih h

/-! ## Rows, list update

`setNth` mirrors writing the cells of one row in place
(out-of-range writes leave the list unchanged). -/

abbrev Row := List String
abbrev Rows := List Row

def setNth {α : Type} : List α → Nat → α → List α
  | [], _, _ => []
  | _ :: xs, 0, a => a :: xs
  | x :: xs, n + 1, a => x :: setNth xs n a

theorem setNth_length {α : Type} (l : List α) (n : Nat) (a : α) :
    (setNth l n a).length = l.length := by
  induction l generalizing n with
  | nil => rfl
  | cons x xs ih =>
    cases n with
    | zero => rfl
    | succ m => simp [setNth, ih]

theorem getD_setNth_self {α : Type} (l : List α) (n : Nat) (a d : α) (h : n < l.length) :
    (setNth l n a).getD n d = a := by
  induction l generalizing n with
  | nil => simp at h
  | cons x xs ih =>
    cases n with
    | zero => rfl
    | succ m =>
      simp only [setNth, List.getD_cons_succ]
      exact ih m (by simpa using h)

/-! ## Spreadsheet model (`app/sheets.py`)

The remote spreadsheet holds the main sheet (`spreadsheet.sheet1`, reached
with `worksheet_title = None`) plus named worksheets.  `get_worksheet`
creates a missing named worksheet (the `WorksheetNotFound` branch calls
`add_worksheet`, which yields an empty value grid). -/

structure Spreadsheet where
  main : Rows
  named : List (String × Rows)
deriving Repr, DecidableEq

def Spreadsheet.get (ss : Spreadsheet) : Option String → Rows
  | none => ss.main
  | some t => (lookupA ss.named t).getD []

def Spreadsheet.set (ss : Spreadsheet) (title : Option String) (rows : Rows) : Spreadsheet :=
  match title with
  | none => { ss with main := rows }
  | some t => { ss with named := setA ss.named t rows }

def ensureSheet (ss : Spreadsheet) (t : String) : Spreadsheet :=
  match lookupA ss.named t with
  | some _ => ss
  | none => { ss with named := ss.named ++ [(t, [])] }

theorem get_ensureSheet (ss : Spreadsheet) (s : String) (t : Option String) :
    (ensureSheet ss s).get t = ss.get t := by
  unfold ensureSheet
  cases hl : lookupA ss.named s with
  | some r => rfl
  | none =>
    cases t with
    | none => rfl
    | some t' =>
      simp only [Spreadsheet.get]
      by_cases h : t' = s
      · subst h
        rw [hl, lookupA_append_single_none ss.named t' [] hl]
        rfl
      · rw [lookupA_append_single_ne ss.named s t' [] h]

theorem get_set_self (ss : Spreadsheet) (t : Option String) (rows : Rows) :
    (ss.set t rows).get t = rows := by
  cases t with
  | none => rfl
  | some s => simp [Spreadsheet.set, Spreadsheet.get, lookupA_setA_self]

theorem get_set_ne (ss : Spreadsheet) (t t' : Option String) (rows : Rows) (h : t' ≠ t) :
    (ss.set t rows).get t' = ss.get t' := by
  cases t with
  | none =>
    cases t' with
    | none => exact absurd rfl h
    | some s' => rfl
  | some s =>
    cases t' with
    | none => rfl
    | some s' =>
      have hs : s' ≠ s := fun hss => h (by rw [hss])
      simp [Spreadsheet.set, Spreadsheet.get, lookupA_setA_ne ss.named s s' rows hs]

/-! ## `GoogleSheetsClient`

State: the remote spreadsheet plus a counter of remote full-sheet fetches
(calls of `worksheet.get_all_values`).  The `_worksheets` dict only caches
worksheet handles and is observationally redundant, so it is not carried.
The client keeps no copy of any sheet data: there is no mirror field
because `app/sheets.py` stores none. -/

structure SheetsClient where
  ss : Spreadsheet
  fetchCount : Nat
deriving Repr, DecidableEq

def get_worksheet (st : SheetsClient) (title : Option String) : SheetsClient :=
  match title with
  | none => st
  | some t => { st with ss := ensureSheet st.ss t }

/-- `get_all_data`: resolves the worksheet and calls the remote
`worksheet.get_all_values` (counted in `fetchCount`), returning exactly
what the remote store holds.  No local copy is retained. -/
def get_all_data (st : SheetsClient) (title : Option String) : Rows × SheetsClient :=
  let st1 := get_worksheet st title
  (st1.ss.get title, { st1 with fetchCount := st1.fetchCount + 1 })

/-- `get_headers`: `data[0] if data else []`. -/
def get_headers (st : SheetsClient) (title : Option String) : Row × SheetsClient :=
  let r := get_all_data st title
  (r.1.headD [], r.2)

/-- `append_row`: remote append of one row; the returned number models the
row count reported after the append. -/
def append_row (st : SheetsClient) (data : Row) (title : Option String) :
    Nat × SheetsClient :=
  let st1 := get_worksheet st title
  let rows := st1.ss.get title
  let st2 := { st1 with ss := st1.ss.set title (rows ++ [data]) }
  ((rows ++ [data]).length, st2)

/-- `update_row`: `worksheet.update(f"A{row_number}", [data])` writes the
cells `A{row_number}` through column `len(data)` of that row; cells of the
row beyond the written range keep their previous remote values.  Row
numbers are 1-based.  (Row numbers beyond the current value grid, which
would grow the grid, are outside the modelled flows.) -/
def update_row (st : SheetsClient) (row_number : Nat) (data : Row)
    (title : Option String) : SheetsClient :=
  let st1 := get_worksheet st title
  let rows := st1.ss.get title
  let idx := row_number - 1
  let old := rows.getD idx []
  { st1 with ss := st1.ss.set title (setNth rows idx (data ++ old.drop data.length)) }

/-- `add_column`: reads the headers (one remote fetch via `get_headers`);
returns `false` when the name is already a header.  Otherwise the source
fetches the header cell with `worksheet.cell(1, len(headers)+1)` and runs
`cell.__setattr__('value', column_name)`, which assigns the `value`
attribute of the locally fetched `Cell` object only — no write request is
issued to the remote store and no refresh happens — then returns `true`.
Hence the remote spreadsheet is unchanged on both branches. -/
def add_column (st : SheetsClient) (column_name : String) (title : Option String) :
    Bool × SheetsClient :=
  let st1 := get_worksheet st title
  let r := get_headers st1 title
  if column_name ∈ r.1 then (false, r.2) else (true, r.2)

inductive PyError
  | attributeError
  | nameError
deriving Repr, DecidableEq

/-- `GoogleSheetsClient` defines no method named `refresh_cache`
(its methods are `_get_client`, `_get_spreadsheet`, `get_worksheet`,
`get_all_data`, `get_headers`, `find_rows`, `append_row`, `update_row`,
`add_column`, `format_date`), so the attribute access
`self.sheets.refresh_cache` in `bot.py` raises `AttributeError`. -/
def refresh_cache (_st : SheetsClient) : Except PyError (Nat × SheetsClient) :=
  .error .attributeError

/-! ## Configuration (`app/config.py`) -/

/-- `settings.date_columns`. -/
def date_columns : List String := ["Дата рождения", "Дата", "Дата регистрации"]

/-! ## Authentication (`app/auth.py`)

`AuthManager` carries two second-level caches of raw sheet data.
`settings.main_admin_id` (environment-overridable, default `526710245`)
is passed explicitly as `mainAdminId`.  Remote calls that the source
wraps in `try/except` take a boolean outcome parameter.

Python `int(cell)` is modelled by `pyInt` (`none` models `ValueError`);
the cells exercised by the claims are canonical decimal strings
(optionally signed, no surrounding whitespace). -/

/-- `int` applied to a non-empty string of decimal digits. -/
def natOfDigits (cs : List Char) : Nat :=
  cs.foldl (fun n c => 10 * n + (c.toNat - 48)) 0

def pyInt (s : String) : Option Int :=
  match s.data with
  | [] => none
  | '-' :: rest =>
    if rest ≠ [] ∧ rest.all Char.isDigit then some (-(natOfDigits rest : Int)) else none
  | cs => if cs.all Char.isDigit then some (natOfDigits cs : Int) else none

structure UserInfo where
  id : Int
  username : Option String
  first_name : Option String
  last_name : Option String
deriving Repr, DecidableEq

structure AuthState where
  users_cache : Option Rows
  logs_cache : Option Rows
deriving Repr, DecidableEq

/-- The row `_log_access` appends: `[now.isoformat(), id, "@username" or "",
first_name, last_name, status]`.  A missing (`None`) name field is written
as an empty cell. -/
def mkLogRow (now : String) (ui : UserInfo) (status : String) : Row :=
  [now, toString ui.id,
   match ui.username with
   | some u => if u = "" then "" else "@" ++ u
   | none => "",
   ui.first_name.getD "", ui.last_name.getD "", status]

/-- `_log_access`: appends the entry to the `AccessLog` sheet and resets
`_logs_cache`; any exception from the append (modelled by
`appendOk = false`) is caught and swallowed, leaving both states as they
were before the append. -/
def log_access (auth : AuthState) (cl : SheetsClient) (ui : UserInfo) (status : String)
    (appendOk : Bool) (now : String) : AuthState × SheetsClient :=
  if appendOk then
    let cl1 := (append_row cl (mkLogRow now ui status) (some "AccessLog")).2
    ({ auth with logs_cache := none }, cl1)
  else
    (auth, cl)

/-- `_get_users_data`: read-through second-level cache of the `Users`
sheet; a failing fetch (`fetchOk = false`) is caught and caches `[]`. -/
def get_users_data (auth : AuthState) (cl : SheetsClient) (fetchOk : Bool) :
    Rows × AuthState × SheetsClient :=
  match auth.users_cache with
  | some rows => (rows, auth, cl)
  | none =>
    if fetchOk then
      let (rows, cl1) := get_all_data cl (some "Users")
      (rows, { auth with users_cache := some rows }, cl1)
    else
      ([], { auth with users_cache := some [] }, cl)

/-- One iteration of the whitelist scan: `user and len(user) > 0 and
user[0]`, then `int(user[0]) == user_id` with `ValueError` skipped. -/
def rowMatchesId (user : Row) (uid : Int) : Bool :=
  match user with
  | [] => false
  | c :: _ => c != "" && pyInt c == some uid

/-- `_is_user_in_whitelist`: scans the data rows (header skipped). -/
def is_user_in_whitelist (auth : AuthState) (cl : SheetsClient) (uid : Int)
    (fetchOk : Bool) : Bool × AuthState × SheetsClient :=
  let g := get_users_data auth cl fetchOk
  (((g.1.drop 1).any (fun u => rowMatchesId u uid)), g.2.1, g.2.2)

/-- `check_access`: the main admin is granted immediately with status
`"GRANTED (Admin)"`; everyone else is checked against the whitelist and
logged with `"GRANTED"` or `"DENIED"`. -/
def check_access (mainAdminId : Int) (auth : AuthState) (cl : SheetsClient)
    (uid : Int) (ui : UserInfo) (fetchOk appendOk : Bool) (now : String) :
    Bool × AuthState × SheetsClient :=
  if uid = mainAdminId then
    let r := log_access auth cl ui "GRANTED (Admin)" appendOk now
    (true, r.1, r.2)
  else
    let w := is_user_in_whitelist auth cl uid fetchOk
    let status := if w.1 then "GRANTED" else "DENIED"
    let r := log_access w.2.1 w.2.2 ui status appendOk now
    (w.1, r.1, r.2)

/-- Outcome of the reversed row scan inside `remove_user`. -/
inductive RemoveScan
  | nameErr
  | valueErr
  | notFound
deriving Repr, DecidableEq

/-- The `for i in range(len(users) - 1, 0, -1)` scan of `remove_user`,
applied to the reversed data rows.  On the first row whose leading cell is
non-empty and parses to `user_id`, the body executes
`loop = asyncio.get_event_loop()`; `app/auth.py` never imports `asyncio`
(its imports are `logging`, `typing`, `datetime`, `app.config`,
`app.sheets`), so that line raises `NameError` before any deletion.  A
non-parsing cell raises `ValueError` from `int`. -/
def scanRows : List Row → Int → RemoveScan
  | [], _ => .notFound
  | r :: rest, uid =>
    match r with
    | [] => scanRows rest uid
    | c :: _ =>
      if c = "" then scanRows rest uid
      else
        match pyInt c with
        | none => .valueErr
        | some n => if n = uid then .nameErr else scanRows rest uid

/-- `remove_user`.  The exception messages are `f"❌ Ошибка: {str(e)}"`;
Python renders the offending names in single quotes, elided here. -/
def remove_user (mainAdminId : Int) (auth : AuthState) (cl : SheetsClient)
    (uid : Int) (fetchOk : Bool) : String × AuthState × SheetsClient :=
  if uid = mainAdminId then
    ("❌ Нельзя удалить главного администратора!", auth, cl)
  else
    let g := get_users_data auth cl fetchOk
    match scanRows (g.1.drop 1).reverse uid with
    | .nameErr => ("❌ Ошибка: name asyncio is not defined", g.2.1, g.2.2)
    | .valueErr => ("❌ Ошибка: invalid literal for int()", g.2.1, g.2.2)
    | .notFound => ("❌ Пользователь не найден", g.2.1, g.2.2)

/-! ## Sessions (`app/sessions.py`)

The in-process (`memory`) backing is modelled; it is the configured
default (`session_storage = "memory"`), and the Redis branch is reached
only when a Redis URL is configured.  Time is a natural tick counter
(`time.time()`), ISO timestamps are opaque strings. -/

/-- One entry of `people_list` (`{'text', 'row', 'display'}`). -/
structure PersonEntry where
  text : String
  row : Nat
  display : String
deriving Repr, DecidableEq

structure Session where
  state : String
  mode : Option String
  draft : List (String × String)
  step : Option String
  last_letter : Option String
  people_list : List PersonEntry
  viewing_row : Option Nat
  editing_row : Option Nat
  user_id : Option Int
  last_access : Nat
  created_at : String
deriving Repr, DecidableEq

abbrev SessionStore := List (Int × Session)

/-- `settings.session_timeout.total_seconds()` = 30 minutes. -/
def session_timeout : Nat := 30 * 60

/-- `_create_new_session`. -/
def create_new_session (now : Nat) (nowIso : String) : Session :=
  { state := "IDLE"
    mode := none
    draft := []
    step := none
    last_letter := none
    people_list := []
    viewing_row := none
    editing_row := none
    user_id := none
    last_access := now
    created_at := nowIso }

/-- `get_session` (memory backing): a stored session younger than the
timeout has its `last_access` refreshed in place and is returned; an
expired one is deleted and — like a missing one — replaced by a fresh
default session (which is not stored). -/
def get_session (store : SessionStore) (chat_id : Int) (now : Nat) (nowIso : String) :
    Session × SessionStore :=
  match lookupA store chat_id with
  | some s =>
    if now - s.last_access < session_timeout then
      let s1 := { s with last_access := now }
      (s1, setA store chat_id s1)
    else
      (create_new_session now nowIso, eraseA store chat_id)
  | none => (create_new_session now nowIso, store)

/-- `save_session`: stores the session after stamping `last_access = now`. -/
def save_session (store : SessionStore) (chat_id : Int) (s : Session) (now : Nat) :
    SessionStore :=
  setA store chat_id { s with last_access := now }

/-- `clear_session`. -/
def clear_session (store : SessionStore) (chat_id : Int) : SessionStore :=
  eraseA store chat_id

/-! ## Bot logic (`app/bot.py`)

Date handling in `_save_card`: the regular expression
`^\d{1,2}\.\d{1,2}\.\d{4}$` and `value.split('.')` are embedded over the
character list of the value.  `splitDots` mirrors `str.split('.')`
(empty parts kept; splitting the empty string yields one empty part). -/

def splitDots : List Char → List (List Char)
  | [] => [[]]
  | c :: cs =>
    if c = '.' then [] :: splitDots cs
    else
      match splitDots cs with
      | [] => [[c]]
      | p :: ps => (c :: p) :: ps

/-- The `:02d` format specifier. -/
def pad2 (n : Nat) : String :=
  if n < 10 then "0" ++ toString n else toString n

/-- `re.match(r"^\d{1,2}\.\d{1,2}\.\d{4}$", value)` as a Boolean test:
the value splits at dots into exactly three runs of digits of lengths
1-2, 1-2 and 4. -/
def matchesDMY (v : String) : Bool :=
  match splitDots v.data with
  | [d, m, y] =>
    d.all Char.isDigit && m.all Char.isDigit && y.all Char.isDigit &&
    (d.length == 1 || d.length == 2) && (m.length == 1 || m.length == 2) &&
    y.length == 4
  | _ => false

/-- The date rewrite inside `_save_card`:
`day, month, year = map(int, value.split('.'))` followed by
`f"{year}-{month:02d}-{day:02d}"`; values not matching the pattern are
returned unchanged (the `try/except` around the conversion cannot fire
once the pattern matched). -/
def format_date_for_save (value : String) : String :=
  if matchesDMY value then
    match splitDots value.data with
    | [d, m, y] =>
      toString (natOfDigits y) ++ "-" ++ pad2 (natOfDigits m) ++ "-" ++ pad2 (natOfDigits d)
    | _ => value
  else value

/-- One cell of the row `_save_card` builds:
`value = session['draft'].get(header, "")`, then
`if header in settings.date_columns and value:` gates the date rewrite
(`value` is a non-empty string; draft values are message texts, so the
`isinstance(value, str)` test always passes). -/
def buildCell (draft : List (String × String)) (h : String) : String :=
  let value := (lookupA draft h).getD ""
  if h ∈ date_columns ∧ value ≠ "" then format_date_for_save value else value

/-- The `row_data` list built by `_save_card`: one cell per header, in
header order. -/
def build_row_data (headers : List String) (draft : List (String × String)) : Row :=
  headers.map (buildCell draft)

def createdMsg : String := "✅ Карточка успешно создана!"

def updatedMsg : String := "✅ Данные обновлены!"

/-- `f"❌ Ошибка при сохранении: {e}"` with the exception text elided. -/
def saveErrMsg : String := "❌ Ошибка при сохранении"

/-- `_save_card`: builds the row from the current headers and the draft,
then appends (mode `CREATE`) or updates row `session['editing_row']`
(other modes), clears the session, and reports success.  `writeOk = false`
models the remote append/update raising: control jumps to the `except`
block before `clear_session`, so the session store is left untouched and
the error message is reported. -/
def save_card (cl : SheetsClient) (store : SessionStore) (chat_id : Int) (s : Session)
    (writeOk : Bool) : SheetsClient × SessionStore × String :=
  let g := get_headers cl none
  let row_data := build_row_data g.1 s.draft
  if writeOk then
    if s.mode = some "CREATE" then
      ((append_row g.2 row_data none).2, clear_session store chat_id, createdMsg)
    else
      (update_row g.2 (s.editing_row.getD 0) row_data none, clear_session store chat_id,
       updatedMsg)
  else
    (g.2, store, saveErrMsg)

def reloadStartMsg : String := "🔄 Обновляю кэш базы данных..."

/-- `f"❌ Ошибка обновления: {e}"`; Python renders the class and attribute
names in single quotes, elided here. -/
def reloadErrMsg : String :=
  "❌ Ошибка обновления: GoogleSheetsClient object has no attribute refresh_cache"

/-- The `/admin reload` branch of `_handle_admin_command`: replies that the
refresh started, then tries `self.sheets.refresh_cache()` followed by
nulling `auth_manager._users_cache` and `auth_manager._logs_cache`; any
exception is caught and reported.  Returns the resulting sheets-client
state, auth state and the replies sent. -/
def admin_reload (cl : SheetsClient) (auth : AuthState) :
    SheetsClient × AuthState × List String :=
  match refresh_cache cl with
  | .ok (count, cl1) =>
    (cl1, { users_cache := none, logs_cache := none },
     [reloadStartMsg, "✅ База данных обновлена!\nЗагружено записей: " ++ toString count])
  | .error _ => (cl, auth, [reloadStartMsg, reloadErrMsg])

/-! ## The date pattern, spec side

`DMYdecomp v d m y` states, in terms of plain string structure, that `v`
is a day run, a dot, a month run, a dot and a year run of decimal digits
with lengths 1-2 / 1-2 / 4 — the literal `D.M.YYYY` / `DD.MM.YYYY`
pattern of the specification.  `dmyRewrite` is the `YYYY-MM-DD` target
form: the year number followed by zero-padded month and day. -/

def DMYdecomp (v : String) (d m y : List Char) : Prop :=
  v.data = d ++ '.' :: (m ++ '.' :: y) ∧
  (∀ c ∈ d, c.isDigit) ∧ (∀ c ∈ m, c.isDigit) ∧ (∀ c ∈ y, c.isDigit) ∧
  (d.length = 1 ∨ d.length = 2) ∧ (m.length = 1 ∨ m.length = 2) ∧ y.length = 4

instance (v : String) (d m y : List Char) : Decidable (DMYdecomp v d m y) := by
  unfold DMYdecomp
  infer_instance

def dmyRewrite (d m y : List Char) : String :=
  toString (natOfDigits y) ++ "-" ++ pad2 (natOfDigits m) ++ "-" ++ pad2 (natOfDigits d)

theorem splitDots_ne_nil (cs : List Char) : splitDots cs ≠ [] := by
  induction cs with
  | nil => simp [splitDots]
  | cons c cs ih =>
    by_cases h : c = '.'
    · simp [splitDots, h]
    · simp only [splitDots, if_neg h]
      cases hs : splitDots cs with
      | nil => simp
      | cons p ps => simp

theorem splitDots_dotfree (a : List Char) (h : ∀ c ∈ a, c ≠ '.') : splitDots a = [a] := by
  induction a with
  | nil => rfl
  | cons c cs ih =>
    have hc : c ≠ '.' := h c (by simp)
    have ihs : splitDots cs = [cs] := ih (fun x hx => h x (by simp [hx]))
    simp [splitDots, hc, ihs]

theorem splitDots_append (a t : List Char) (h : ∀ c ∈ a, c ≠ '.') :
    splitDots (a ++ '.' :: t) = a :: splitDots t := by
  induction a with
  | nil => simp [splitDots]
  | cons c cs ih =>
    have hc : c ≠ '.' := h c (by simp)
    have ihs := ih (fun x hx => h x (by simp [hx]))
    simp only [List.cons_append, splitDots, if_neg hc]
    rw [show splitDots (cs.append ('.' :: t)) = cs :: splitDots t from ihs]

def joinDots : List (List Char) → List Char
  | [] => []
  | [p] => p
  | p :: ps => p ++ '.' :: joinDots ps

theorem joinDots_splitDots (cs : List Char) : joinDots (splitDots cs) = cs := by
  induction cs with
  | nil => rfl
  | cons c cs ih =>
    by_cases h : c = '.'
    · subst h
      simp only [splitDots, if_pos rfl]
      cases hs : splitDots cs with
      | nil => exact absurd hs (splitDots_ne_nil cs)
      | cons p ps =>
        rw [hs] at ih
        show joinDots ([] :: p :: ps) = '.' :: cs
        rw [show joinDots ([] :: p :: ps) = [] ++ '.' :: joinDots (p :: ps) from rfl]
        simp [ih]
    · simp only [splitDots, if_neg h]
      cases hs : splitDots cs with
      | nil => exact absurd hs (splitDots_ne_nil cs)
      | cons p ps =>
        rw [hs] at ih
        cases ps with
        | nil =>
          have hp : p = cs := ih
          simp [joinDots, hp]
        | cons q qs =>
          rw [show joinDots ((c :: p) :: q :: qs) = (c :: p) ++ '.' :: joinDots (q :: qs)
            from rfl]
          rw [show joinDots (p :: q :: qs) = p ++ '.' :: joinDots (q :: qs) from rfl] at ih
          simp [← ih]

theorem digit_ne_dot {c : Char} (h : c.isDigit) : c ≠ '.' := by
  intro he
  subst he
  simp [Char.isDigit] at h

/-- The Boolean regex test agrees with the structural pattern. -/
theorem matchesDMY_iff (v : String) :
    matchesDMY v = true ↔ ∃ d m y, DMYdecomp v d m y := by
  constructor
  · intro h
    unfold matchesDMY at h
    cases hs : splitDots v.data with
    | nil => rw [hs] at h; simp at h
    | cons d rest =>
      cases rest with
      | nil => rw [hs] at h; simp at h
      | cons m rest2 =>
        cases rest2 with
        | nil => rw [hs] at h; simp at h
        | cons y rest3 =>
          cases rest3 with
          | cons z zs => rw [hs] at h; simp at h
          | nil =>
            rw [hs] at h
            simp only [Bool.and_eq_true, List.all_eq_true, beq_iff_eq,
              Bool.or_eq_true] at h
            obtain ⟨⟨⟨⟨⟨hd, hm⟩, hy⟩, hld⟩, hlm⟩, hly⟩ := h
            refine ⟨d, m, y, ?_, hd, hm, hy, hld, hlm, hly⟩
            have := joinDots_splitDots v.data
            rw [hs] at this
            rw [show joinDots (d :: m :: y :: []) = d ++ '.' :: joinDots (m :: y :: [])
              from rfl, show joinDots (m :: y :: []) = m ++ '.' :: joinDots [y] from rfl,
              show joinDots [y] = y from rfl] at this
            exact this.symm
  · rintro ⟨d, m, y, hv, hd, hm, hy, hld, hlm, hly⟩
    have hdot_d : ∀ c ∈ d, c ≠ '.' := fun c hc => digit_ne_dot (hd c hc)
    have hdot_m : ∀ c ∈ m, c ≠ '.' := fun c hc => digit_ne_dot (hm c hc)
    have hdot_y : ∀ c ∈ y, c ≠ '.' := fun c hc => digit_ne_dot (hy c hc)
    unfold matchesDMY
    rw [hv, splitDots_append d _ hdot_d, splitDots_append m _ hdot_m,
      splitDots_dotfree y hdot_y]
    simp only [Bool.and_eq_true, List.all_eq_true, beq_iff_eq, Bool.or_eq_true]
    exact ⟨⟨⟨⟨⟨hd, hm⟩, hy⟩, hld⟩, hlm⟩, hly⟩

/-- On a value matching the pattern, the rewrite produces the
`YYYY-MM-DD` form of the decomposition. -/
theorem format_date_of_decomp (v : String) (d m y : List Char)
    (h : DMYdecomp v d m y) : format_date_for_save v = dmyRewrite d m y := by
  obtain ⟨hv, hd, hm, hy, hld, hlm, hly⟩ := h
  have hmatch : matchesDMY v = true :=
    (matchesDMY_iff v).mpr ⟨d, m, y, hv, hd, hm, hy, hld, hlm, hly⟩
  have hdot_d : ∀ c ∈ d, c ≠ '.' := fun c hc => digit_ne_dot (hd c hc)
  have hdot_m : ∀ c ∈ m, c ≠ '.' := fun c hc => digit_ne_dot (hm c hc)
  have hdot_y : ∀ c ∈ y, c ≠ '.' := fun c hc => digit_ne_dot (hy c hc)
  unfold format_date_for_save
  rw [if_pos hmatch, hv, splitDots_append d _ hdot_d, splitDots_append m _ hdot_m,
    splitDots_dotfree y hdot_y]
  rfl

/-- A value admitting no decomposition is passed through unchanged. -/
theorem format_date_of_no_decomp (v : String)
    (h : ¬ ∃ d m y, DMYdecomp v d m y) : format_date_for_save v = v := by
  have hmatch : matchesDMY v = false := by
    cases hb : matchesDMY v with
    | false => rfl
    | true => exact absurd ((matchesDMY_iff v).mp hb) h
  unfold format_date_for_save
  rw [hmatch]
  simp

/-! ## Supporting lemmas about component effects -/

/-- Contents of the `AccessLog` sheet. -/
def accessLog (cl : SheetsClient) : Rows := cl.ss.get (some "AccessLog")

theorem fetchCount_get_worksheet (st : SheetsClient) (t : Option String) :
    (get_worksheet st t).fetchCount = st.fetchCount := by
  cases t <;> rfl

theorem get_get_worksheet (st : SheetsClient) (t t' : Option String) :
    (get_worksheet st t).ss.get t' = st.ss.get t' := by
  cases t with
  | none => rfl
  | some s => exact get_ensureSheet st.ss s t'

theorem accessLog_append_row (cl : SheetsClient) (row : Row) :
    accessLog (append_row cl row (some "AccessLog")).2 = accessLog cl ++ [row] := by
  unfold accessLog append_row
  rw [get_set_self]
  rw [get_get_worksheet]

theorem accessLog_get_users_data (auth : AuthState) (cl : SheetsClient) (fOk : Bool) :
    accessLog (get_users_data auth cl fOk).2.2 = accessLog cl := by
  unfold get_users_data
  cases auth.users_cache with
  | some rows => rfl
  | none =>
    cases fOk with
    | true =>
      show accessLog (get_all_data cl (some "Users")).2 = accessLog cl
      unfold accessLog get_all_data
      exact get_get_worksheet cl (some "Users") (some "AccessLog")
    | false => rfl

theorem accessLog_log_access_ok (auth : AuthState) (cl : SheetsClient) (ui : UserInfo)
    (status : String) (now : String) :
    accessLog (log_access auth cl ui status true now).2
      = accessLog cl ++ [mkLogRow now ui status] := by
  unfold log_access
  exact accessLog_append_row cl (mkLogRow now ui status)

theorem build_row_data_length (headers : List String) (draft : List (String × String)) :
    (build_row_data headers draft).length = headers.length := by
  simp [build_row_data]

theorem build_row_data_getD (headers : List String) (draft : List (String × String))
    (i : Nat) (hi : i < headers.length) :
    (build_row_data headers draft).getD i "" = buildCell draft (headers.getD i "") := by
  induction headers generalizing i with
  | nil => simp at hi
  | cons h hs ih =>
    cases i with
    | zero => rfl
    | succ j =>
      simp only [build_row_data, List.map_cons, List.getD_cons_succ]
      exact ih j (by simpa using hi)

theorem decomp_value_ne_empty {v : String} {d m y : List Char}
    (h : DMYdecomp v d m y) : v ≠ "" := by
  intro he
  subst he
  obtain ⟨hv, -, -, -, -, -, -⟩ := h
  have : ([] : List Char) = d ++ '.' :: (m ++ '.' :: y) := hv
  exact absurd this.symm (by simp)

/-! ## Claim C1 -/

/-- Claim C1, counterexample: on a cold client, a first `get_all_data` of
the main sheet performs one remote fetch, and an immediately following
`get_all_data` of the same sheet performs one more — the claim that the
second call performs zero additional remote fetches is false, because
`get_all_data` keeps no in-memory mirror. -/
theorem c1_counterexample :
    ((get_all_data (⟨⟨[["H"], ["r"]], []⟩, 0⟩ : SheetsClient) none).2).fetchCount = 1 ∧
    ((get_all_data ((get_all_data (⟨⟨[["H"], ["r"]], []⟩, 0⟩ : SheetsClient) none).2)
        none).2).fetchCount = 2 ∧
    (2 : Nat) ≠ 1 := by
  decide

/-- Claim C1 as amended: every `get_all_data` call performs exactly one
remote fetch; there is no in-memory mirror, so a second immediate call for
the same sheet performs exactly one additional remote fetch (and, the
remote store being unchanged in between, returns the same rows). -/
theorem get_all_data_always_fetches (st : SheetsClient) (t : Option String) :
    ((get_all_data st t).2).fetchCount = st.fetchCount + 1 ∧
    ((get_all_data (get_all_data st t).2 t).2).fetchCount = st.fetchCount + 2 ∧
    (get_all_data (get_all_data st t).2 t).1 = (get_all_data st t).1 := by
  refine ⟨?_, ?_, ?_⟩
  · show (get_worksheet st t).fetchCount + 1 = st.fetchCount + 1
    rw [fetchCount_get_worksheet]
  · show (get_worksheet (get_all_data st t).2 t).fetchCount + 1 = st.fetchCount + 2
    rw [fetchCount_get_worksheet]
    show (get_worksheet st t).fetchCount + 1 + 1 = st.fetchCount + 2
    rw [fetchCount_get_worksheet]
  · show (get_worksheet (get_all_data st t).2 t).ss.get t = (get_all_data st t).1
    rw [get_get_worksheet]
    show (get_worksheet st t).ss.get t = (get_all_data st t).1
    rfl

/-! ## Claim C5 -/

/-- Claim C5, counterexample: updating row 2 (a 5-cell row) with a 2-cell
value leaves the three trailing remote cells at their previous values
`"c"`, `"d"`, `"e"` — they are not empty-string-padded, and no mirror
exists to patch. -/
theorem c5_counterexample :
    (((update_row (⟨⟨[["H1","H2","H3","H4","H5"], ["a","b","c","d","e"]], []⟩, 0⟩ :
        SheetsClient) 2 ["x","y"] none).ss.get none).getD 1 [] = ["x","y","c","d","e"]) ∧
    (((update_row (⟨⟨[["H1","H2","H3","H4","H5"], ["a","b","c","d","e"]], []⟩, 0⟩ :
        SheetsClient) 2 ["x","y"] none).ss.get none).getD 1 [] ≠ ["x","y","","",""]) := by
  decide

/-- Claim C5 as amended: `update_row` with fewer cells than the existing
remote row overwrites the leading cells and leaves the trailing cells at
their previous values (not empty strings), so the row keeps exactly its
previous width — a row's width never shrinks; there is no in-memory
mirror, and no remote re-fetch of any kind is performed. -/
theorem update_row_keeps_trailing (st : SheetsClient) (n : Nat) (data : Row)
    (t : Option String)
    (hn : n - 1 < ((get_worksheet st t).ss.get t).length)
    (hlen : data.length ≤ ((((get_worksheet st t).ss.get t).getD (n - 1) [])).length) :
    (((update_row st n data t).ss.get t).getD (n - 1) []
      = data ++ ((((get_worksheet st t).ss.get t).getD (n - 1) []).drop data.length)) ∧
    ((((update_row st n data t).ss.get t).getD (n - 1) []).length
      = (((get_worksheet st t).ss.get t).getD (n - 1) []).length) ∧
    (update_row st n data t).fetchCount = st.fetchCount := by
  refine ⟨?_, ?_, ?_⟩
  · show ((((get_worksheet st t).ss.set t _).get t).getD (n - 1) []) = _
    rw [get_set_self]
    exact getD_setNth_self _ _ _ _ hn
  · show ((((get_worksheet st t).ss.set t _).get t).getD (n - 1) []).length = _
    rw [get_set_self, getD_setNth_self _ _ _ _ hn]
    simp only [List.length_append, List.length_drop]
    exact Nat.add_sub_cancel' hlen
  · show (get_worksheet st t).fetchCount = st.fetchCount
    exact fetchCount_get_worksheet st t

/-- Claim C5, witness for the amended theorem at a concrete input:
row 2 of a 3-column sheet updated with one cell keeps its old trailing
cells and its width. -/
theorem update_row_keeps_trailing_witness :
    (((update_row (⟨⟨[["H1","H2","H3"], ["a","b","c"]], []⟩, 0⟩ : SheetsClient)
        2 ["x"] none).ss.get none).getD 1 [] = ["x","b","c"]) ∧
    ((((update_row (⟨⟨[["H1","H2","H3"], ["a","b","c"]], []⟩, 0⟩ : SheetsClient)
        2 ["x"] none).ss.get none).getD 1 []).length = 3) := by
  have h := update_row_keeps_trailing
    (⟨⟨[["H1","H2","H3"], ["a","b","c"]], []⟩, 0⟩ : SheetsClient) 2 ["x"] none
    (by decide) (by decide)
  exact ⟨h.1.trans (by decide), h.2.1.trans (by decide)⟩

/-! ## Claim C8 -/

/-- Claim C8 (code bug): the `/admin reload` handler always fails —
`GoogleSheetsClient` has no `refresh_cache` method, so the attribute
access raises `AttributeError`, the handler reports the update error, and
neither `_users_cache` nor `_logs_cache` is nulled and no refresh of the
main sheet happens: the resulting states equal the input states. -/
theorem admin_reload_reports_failure (cl : SheetsClient) (auth : AuthState) :
    admin_reload cl auth = (cl, auth, [reloadStartMsg, reloadErrMsg]) := rfl

/-! ## Claim C9 -/

/-- Claim C9 (code bug), evaluated at a failing input: with headers
`["Имя","Фамилия"]`, `add_column "Возраст"` returns `true`, yet the
remote spreadsheet is completely unchanged — the new header cell is never
written (the source only sets the `value` attribute of a locally fetched
`Cell` object) and no refresh is forced (only the one header read is
performed). -/
theorem add_column_returns_true_without_remote_write :
    ((add_column (⟨⟨[["Имя","Фамилия"], ["Иван","Петров"]], []⟩, 0⟩ : SheetsClient)
        "Возраст" none).1 = true) ∧
    ((add_column (⟨⟨[["Имя","Фамилия"], ["Иван","Петров"]], []⟩, 0⟩ : SheetsClient)
        "Возраст" none).2.ss = ⟨[["Имя","Фамилия"], ["Иван","Петров"]], []⟩) ∧
    (((add_column (⟨⟨[["Имя","Фамилия"], ["Иван","Петров"]], []⟩, 0⟩ : SheetsClient)
        "Возраст" none).2.ss.get none).headD [] = ["Имя","Фамилия"]) := by
  decide

/-! ## Claim C2 -/

/-- Claim C2: the row persisted by `_save_card` has one cell per header of
the main sheet, in header order, holding `draft[header]` if present and
`""` otherwise; for a header that is a configured date column, a value
matching the literal `D.M.YYYY` / `DD.MM.YYYY` pattern (1-2 digit day,
1-2 digit month, 4-digit year, dot-separated — `DMYdecomp`) is rewritten
to the `YYYY-MM-DD` form `dmyRewrite` (year number, zero-padded month and
day), while any value not matching the pattern — and any value of a
non-date column — is persisted unchanged. -/
theorem save_card_row_build (headers : List String) (draft : List (String × String))
    (i : Nat) (hi : i < headers.length) :
    (build_row_data headers draft).length = headers.length ∧
    (headers.getD i "" ∉ date_columns →
      (build_row_data headers draft).getD i ""
        = (lookupA draft (headers.getD i "")).getD "") ∧
    (headers.getD i "" ∈ date_columns → ∀ d m y,
      DMYdecomp ((lookupA draft (headers.getD i "")).getD "") d m y →
      (build_row_data headers draft).getD i "" = dmyRewrite d m y) ∧
    (headers.getD i "" ∈ date_columns →
      (¬ ∃ d m y, DMYdecomp ((lookupA draft (headers.getD i "")).getD "") d m y) →
      (build_row_data headers draft).getD i ""
        = (lookupA draft (headers.getD i "")).getD "") := by
  refine ⟨build_row_data_length headers draft, ?_, ?_, ?_⟩
  · intro hnot
    rw [build_row_data_getD headers draft i hi]
    unfold buildCell
    rw [if_neg (fun hc => hnot hc.1)]
  · intro hdate d m y hdec
    rw [build_row_data_getD headers draft i hi]
    unfold buildCell
    rw [if_pos ⟨hdate, decomp_value_ne_empty hdec⟩]
    exact format_date_of_decomp _ d m y hdec
  · intro hdate hno
    rw [build_row_data_getD headers draft i hi]
    unfold buildCell
    by_cases hv : (lookupA draft (headers.getD i "")).getD "" = ""
    · rw [if_neg (fun hc => hc.2 hv)]
    · rw [if_pos ⟨hdate, hv⟩]
      exact format_date_of_no_decomp _ hno

/-- Claim C2, witness: with headers `["Имя", "Дата рождения"]` and draft
`{"Дата рождения": "04.05.1998"}`, the date cell is persisted as
`"1998-05-04"`, the name cell (absent from the draft) as `""`; with the
value `"1998-05-04"` (not matching the pattern) the cell is persisted
unchanged. -/
theorem save_card_row_build_witness :
    ((build_row_data ["Имя", "Дата рождения"] [("Дата рождения", "04.05.1998")]).getD 1 ""
      = "1998-05-04") ∧
    ((build_row_data ["Имя", "Дата рождения"] [("Дата рождения", "04.05.1998")]).getD 0 ""
      = "") ∧
    ((build_row_data ["Имя", "Дата рождения"] [("Дата рождения", "1998-05-04")]).getD 1 ""
      = "1998-05-04") := by
  have h1 := (save_card_row_build ["Имя", "Дата рождения"]
    [("Дата рождения", "04.05.1998")] 1 (by decide)).2.2.1 (by decide)
    "04".data "05".data "1998".data (by decide)
  have h2 := (save_card_row_build ["Имя", "Дата рождения"]
    [("Дата рождения", "04.05.1998")] 0 (by decide)).2.1 (by decide)
  have h3 := (save_card_row_build ["Имя", "Дата рождения"]
    [("Дата рождения", "1998-05-04")] 1 (by decide)).2.2.2 (by decide)
    (fun hex => absurd ((matchesDMY_iff _).mpr hex) (by decide))
  exact ⟨h1.trans (by decide), h2.trans (by decide), h3.trans (by decide)⟩

/-! ## Claim C4 -/

/-- Claim C4: if the remote write (append or update) during `_save_card`
fails, the error message is reported and the session store is untouched —
the still-stored builder session and its draft are intact, and the remote
spreadsheet is unchanged past the header read; the session is cleared
exactly when the remote write succeeded (the `clear_session` call sits
after the write inside the `try` block). -/
theorem save_card_clears_only_on_success (cl : SheetsClient) (store : SessionStore)
    (chat_id : Int) (s : Session) (writeOk : Bool) :
    (writeOk = false →
      (save_card cl store chat_id s writeOk).2.1 = store ∧
      (save_card cl store chat_id s writeOk).2.2 = saveErrMsg ∧
      (save_card cl store chat_id s writeOk).1.ss = cl.ss) ∧
    (writeOk = true →
      (save_card cl store chat_id s writeOk).2.1 = clear_session store chat_id ∧
      ((save_card cl store chat_id s writeOk).2.2 = createdMsg ∨
       (save_card cl store chat_id s writeOk).2.2 = updatedMsg)) := by
  constructor
  · intro h
    subst h
    exact ⟨rfl, rfl, rfl⟩
  · intro h
    subst h
    by_cases hm : s.mode = some "CREATE"
    · refine ⟨?_, Or.inl ?_⟩ <;> simp [save_card, hm]
    · refine ⟨?_, Or.inr ?_⟩ <;> simp [save_card, hm]

/-- Claim C4, witness: a failing write leaves a concrete builder session
stored with its draft, and a succeeding write clears it. -/
theorem save_card_clears_only_on_success_witness :
    ((save_card (⟨⟨[["Имя"]], []⟩, 0⟩ : SheetsClient)
        [(7, { state := "BUILDER_MODE", mode := some "CREATE",
               draft := [("Имя", "Иван")], step := none, last_letter := none,
               people_list := [], viewing_row := none, editing_row := none,
               user_id := some 7, last_access := 0, created_at := "t0" })] 7
        { state := "BUILDER_MODE", mode := some "CREATE", draft := [("Имя", "Иван")],
          step := none, last_letter := none, people_list := [], viewing_row := none,
          editing_row := none, user_id := some 7, last_access := 0,
          created_at := "t0" } false).2.1
      = [(7, { state := "BUILDER_MODE", mode := some "CREATE",
               draft := [("Имя", "Иван")], step := none, last_letter := none,
               people_list := [], viewing_row := none, editing_row := none,
               user_id := some 7, last_access := 0, created_at := "t0" })]) ∧
    ((save_card (⟨⟨[["Имя"]], []⟩, 0⟩ : SheetsClient)
        [(7, { state := "BUILDER_MODE", mode := some "CREATE",
               draft := [("Имя", "Иван")], step := none, last_letter := none,
               people_list := [], viewing_row := none, editing_row := none,
               user_id := some 7, last_access := 0, created_at := "t0" })] 7
        { state := "BUILDER_MODE", mode := some "CREATE", draft := [("Имя", "Иван")],
          step := none, last_letter := none, people_list := [], viewing_row := none,
          editing_row := none, user_id := some 7, last_access := 0,
          created_at := "t0" } true).2.1 = []) := by
  refine ⟨(save_card_clears_only_on_success _ _ _ _ false).1 rfl |>.1, ?_⟩
  exact ((save_card_clears_only_on_success _ _ _ _ true).2 rfl).1.trans (by decide)

/-! ## Claim C10 -/

/-- Claim C10: the allowed/denied decision returned by `check_access` is
the same whether the `AccessLog` append succeeds or raises — the logging
exception is caught and swallowed inside `_log_access`, which only
touches the auth and sheets states, never the decision. -/
theorem check_access_decision_ignores_log_outcome (admin : Int) (auth : AuthState)
    (cl : SheetsClient) (uid : Int) (ui : UserInfo) (fOk : Bool) (now : String) :
    (check_access admin auth cl uid ui fOk true now).1
      = (check_access admin auth cl uid ui fOk false now).1 := by
  unfold check_access
  by_cases h : uid = admin
  · rw [if_pos h, if_pos h]
  · rw [if_neg h, if_neg h]

/-! ## Claim C3 -/

/-- Claim C3, counterexample: a check for the configured superuser id
appends one entry whose status is `"GRANTED (Admin)"` — neither exactly
`"GRANTED"` nor exactly `"DENIED"`; moreover with a failing log append
(swallowed inside `_log_access`) a check appends no entry at all. -/
theorem c3_counterexample :
    (accessLog (check_access 526710245 ⟨none, none⟩
        (⟨⟨[], [("Users", [["ID"], ["42"]])]⟩, 0⟩ : SheetsClient) 526710245
        ⟨526710245, some "gosha", some "G", none⟩ true true "T0").2.2
      = [["T0", "526710245", "@gosha", "G", "", "GRANTED (Admin)"]]) ∧
    (("GRANTED (Admin)" : String) ≠ "GRANTED" ∧ ("GRANTED (Admin)" : String) ≠ "DENIED") ∧
    (accessLog (check_access 526710245 ⟨none, none⟩
        (⟨⟨[], [("Users", [["ID"], ["42"]])]⟩, 0⟩ : SheetsClient) 99
        ⟨99, none, none, none⟩ true false "T0").2.2 = []) := by
  decide

/-- Claim C3 as amended: assuming the log append succeeds, every
`check_access` call appends exactly one `AccessLog` entry, whose status is
`"GRANTED"`, `"DENIED"`, or — for the configured superuser —
`"GRANTED (Admin)"`; and for any id that is not the superuser and is
absent from the `Users` whitelist, `check_access` returns `false` and
appends exactly one entry with status `"DENIED"`. -/
theorem check_access_logs_once (admin : Int) (auth : AuthState) (cl : SheetsClient)
    (uid : Int) (ui : UserInfo) (fOk : Bool) (now : String) :
    (∃ status, accessLog (check_access admin auth cl uid ui fOk true now).2.2
        = accessLog cl ++ [mkLogRow now ui status] ∧
      (status = "GRANTED" ∨ status = "DENIED" ∨
        (uid = admin ∧ status = "GRANTED (Admin)"))) ∧
    (uid ≠ admin →
      (is_user_in_whitelist auth cl uid fOk).1 = false →
      (check_access admin auth cl uid ui fOk true now).1 = false ∧
      accessLog (check_access admin auth cl uid ui fOk true now).2.2
        = accessLog cl ++ [mkLogRow now ui "DENIED"]) := by
  by_cases h : uid = admin
  · constructor
    · refine ⟨"GRANTED (Admin)", ?_, Or.inr (Or.inr ⟨h, rfl⟩)⟩
      unfold check_access
      rw [if_pos h]
      exact accessLog_log_access_ok auth cl ui _ now
    · intro hne
      exact absurd h hne
  · have hlog : accessLog (check_access admin auth cl uid ui fOk true now).2.2
        = accessLog cl ++ [mkLogRow now ui
            (if (is_user_in_whitelist auth cl uid fOk).1 then "GRANTED" else "DENIED")] := by
      unfold check_access
      rw [if_neg h]
      rw [show accessLog (log_access (is_user_in_whitelist auth cl uid fOk).2.1
            (is_user_in_whitelist auth cl uid fOk).2.2 ui
            (if (is_user_in_whitelist auth cl uid fOk).1 then "GRANTED" else "DENIED")
            true now).2
          = accessLog (is_user_in_whitelist auth cl uid fOk).2.2 ++ [mkLogRow now ui
            (if (is_user_in_whitelist auth cl uid fOk).1 then "GRANTED" else "DENIED")]
        from accessLog_log_access_ok _ _ _ _ _]
      rw [show accessLog (is_user_in_whitelist auth cl uid fOk).2.2 = accessLog cl
        from accessLog_get_users_data auth cl fOk]
    constructor
    · cases hwl : (is_user_in_whitelist auth cl uid fOk).1 with
      | true =>
        refine ⟨"GRANTED", ?_, Or.inl rfl⟩
        rw [hwl] at hlog
        simpa using hlog
      | false =>
        refine ⟨"DENIED", ?_, Or.inr (Or.inl rfl)⟩
        rw [hwl] at hlog
        simpa using hlog
    · intro _ hwf
      constructor
      · unfold check_access
        rw [if_neg h]
        exact hwf
      · rw [hwf] at hlog
        simpa using hlog

/-- Claim C3, witness for the amended theorem: an unknown, non-superuser
id is denied and exactly one `DENIED` entry is appended. -/
theorem check_access_logs_once_witness :
    ((check_access 526710245 ⟨none, none⟩
        (⟨⟨[], [("Users", [["ID"], ["42"]])]⟩, 0⟩ : SheetsClient) 99
        ⟨99, none, some "X", none⟩ true true "T0").1 = false) ∧
    (accessLog (check_access 526710245 ⟨none, none⟩
        (⟨⟨[], [("Users", [["ID"], ["42"]])]⟩, 0⟩ : SheetsClient) 99
        ⟨99, none, some "X", none⟩ true true "T0").2.2
      = [["T0", "99", "", "X", "", "DENIED"]]) := by
  have h := (check_access_logs_once 526710245 ⟨none, none⟩
    (⟨⟨[], [("Users", [["ID"], ["42"]])]⟩, 0⟩ : SheetsClient) 99
    ⟨99, none, some "X", none⟩ true "T0").2 (by decide) (by decide)
  exact ⟨h.1, h.2.trans (by decide)⟩

/-! ## Claim C6 -/

/-- Claim C6 (code bug), evaluated at a failing input: for the
non-superuser id `42`, present in the `Users` sheet, `remove_user` hits
the `NameError` from the missing `asyncio` import as soon as the matching
row is found — it returns the caught-exception message (not a success
result), the matching spreadsheet row is not deleted, and the local users
cache is left populated rather than invalidated. -/
theorem remove_user_missing_asyncio :
    ((remove_user 526710245 ⟨none, none⟩
        (⟨⟨[], [("Users", [["ID","Username","Name","Role"], ["42","u","U","user"]])]⟩, 0⟩ :
          SheetsClient) 42 true).1 = "❌ Ошибка: name asyncio is not defined") ∧
    ((remove_user 526710245 ⟨none, none⟩
        (⟨⟨[], [("Users", [["ID","Username","Name","Role"], ["42","u","U","user"]])]⟩, 0⟩ :
          SheetsClient) 42 true).2.1.users_cache ≠ none) ∧
    ((remove_user 526710245 ⟨none, none⟩
        (⟨⟨[], [("Users", [["ID","Username","Name","Role"], ["42","u","U","user"]])]⟩, 0⟩ :
          SheetsClient) 42 true).2.2.ss.get (some "Users")
      = [["ID","Username","Name","Role"], ["42","u","U","user"]]) := by
  decide

/-! ## Claim C7 -/

/-- Claim C7, counterexample: a session saved at time 0 and read back at
time 1 (well within the 1800-second window) comes back with
`last_access = 1` — not "exactly the saved value": it differs both from
the value passed to `save_session` and from the value `save_session`
stored. -/
theorem c7_counterexample :
    ((1 : Nat) - 0 < session_timeout) ∧
    ((get_session (save_session [] 7
        { state := "BUILDER_MODE", mode := some "CREATE", draft := [("Имя", "Иван")],
          step := none, last_letter := none, people_list := [], viewing_row := none,
          editing_row := none, user_id := some 7, last_access := 999,
          created_at := "t0" } 0) 7 1 "t1").1
      ≠ { state := "BUILDER_MODE", mode := some "CREATE", draft := [("Имя", "Иван")],
          step := none, last_letter := none, people_list := [], viewing_row := none,
          editing_row := none, user_id := some 7, last_access := 999,
          created_at := "t0" }) ∧
    ((get_session (save_session [] 7
        { state := "BUILDER_MODE", mode := some "CREATE", draft := [("Имя", "Иван")],
          step := none, last_letter := none, people_list := [], viewing_row := none,
          editing_row := none, user_id := some 7, last_access := 999,
          created_at := "t0" } 0) 7 1 "t1").1
      ≠ { state := "BUILDER_MODE", mode := some "CREATE", draft := [("Имя", "Иван")],
          step := none, last_letter := none, people_list := [], viewing_row := none,
          editing_row := none, user_id := some 7, last_access := 0,
          created_at := "t0" }) := by
  decide

/-- Claim C7 as amended: for every chat id never seen before,
`get_session` returns the default session — state `"IDLE"`, mode unset,
empty draft, empty people list, and every optional field unset; and for
every saved session value, `get_session` within the timeout window
returns the saved value with its `last_access` field refreshed to the
read time, all other fields exactly as saved. -/
theorem get_session_default_and_roundtrip (store : SessionStore) (chat : Int)
    (s : Session) (t t' now : Nat) (iso : String) :
    (lookupA store chat = none →
      (get_session store chat now iso).1.state = "IDLE" ∧
      (get_session store chat now iso).1.mode = none ∧
      (get_session store chat now iso).1.draft = [] ∧
      (get_session store chat now iso).1.people_list = [] ∧
      (get_session store chat now iso).1.step = none ∧
      (get_session store chat now iso).1.last_letter = none ∧
      (get_session store chat now iso).1.viewing_row = none ∧
      (get_session store chat now iso).1.editing_row = none ∧
      (get_session store chat now iso).1.user_id = none) ∧
    (t' - t < session_timeout →
      (get_session (save_session store chat s t) chat t' iso).1
        = { s with last_access := t' }) := by
  constructor
  · intro hmiss
    unfold get_session
    rw [hmiss]
    exact ⟨rfl, rfl, rfl, rfl, rfl, rfl, rfl, rfl, rfl⟩
  · intro hwin
    unfold get_session save_session
    rw [lookupA_setA_self store chat { s with last_access := t }]
    simp only
    rw [if_pos (by simpa using hwin)]

/-- Claim C7, witness for the amended theorem: a fresh chat id yields the
IDLE default, and a concrete save-then-get within the window returns the
saved fields with `last_access` set to the read time. -/
theorem get_session_default_and_roundtrip_witness :
    ((get_session [] 7 5 "t").1.state = "IDLE" ∧ (get_session [] 7 5 "t").1.draft = []) ∧
    ((get_session (save_session [] 7
        { state := "VIEWING_CARD", mode := some "VIEW_ONLY", draft := [],
          step := none, last_letter := some "А", people_list := [],
          viewing_row := some 3, editing_row := none, user_id := some 7,
          last_access := 42, created_at := "t0" } 10) 7 11 "t1").1
      = { state := "VIEWING_CARD", mode := some "VIEW_ONLY", draft := [],
          step := none, last_letter := some "А", people_list := [],
          viewing_row := some 3, editing_row := none, user_id := some 7,
          last_access := 11, created_at := "t0" }) := by
  have h1 := (get_session_default_and_roundtrip [] 7
    { state := "VIEWING_CARD", mode := some "VIEW_ONLY", draft := [],
      step := none, last_letter := some "А", people_list := [],
      viewing_row := some 3, editing_row := none, user_id := some 7,
      last_access := 42, created_at := "t0" } 10 11 5 "t").1 rfl
  have h2 := (get_session_default_and_roundtrip [] 7
    { state := "VIEWING_CARD", mode := some "VIEW_ONLY", draft := [],
      step := none, last_letter := some "А", people_list := [],
      viewing_row := some 3, editing_row := none, user_id := some 7,
      last_access := 42, created_at := "t0" } 10 11 5 "t1").2 (by decide)
  exact ⟨⟨h1.1, h1.2.2.1⟩, h2⟩

end ChurchBot
